import Mathlib

/-!
Shallow embedding of the ESP32 Remote_switch core
(src/Core/Remote_switch/Remote_switch.c, src/Core/TCP_client/TCP_client.c,
src/Core/System_config/System_lights.h), together with theorems settling
the specification claims about it.

Machine integers are modelled as `Nat` with explicit `% 2 ^ 64` where the
C code computes in `uint64_t`.  Fallible or environment-dependent calls
(semaphore take, queue insertion, WiFi init results) are modelled by
explicit boolean parameters carrying the outcome the RTOS reports.
-/

namespace RemoteSwitch

/-! ## Configuration constants (System_lights.h, TCP_client.c) -/

/-- Constant `MAX_DUTY_CYCLE_PERC` from System_lights.h line 25. -/
def MAX_DUTY_CYCLE_PERC : Nat := 100

/-- Constant `MIN_DUTY_CYCLE_PERC` from System_lights.h line 26. -/
def MIN_DUTY_CYCLE_PERC : Nat := 20

/-- Constant `RX_QUEUE_LEN` from TCP_client.c line 30: capacity of the command TX queue. -/
def RX_QUEUE_LEN : Nat := 10

/-- Modulus of the C type `uint64_t` (`num_of_presses` in Remote_switch.c). -/
def UINT64_MOD : Nat := 2 ^ 64

/-! ## Identifiers

`Button_ID` (Button_physical_connection.h) is a C enum; the process-wide
`pressed_button` variable has this type, and since C enums carry any value
of the underlying integer type we model `Button_ID` as `Nat`, with
`BUTTON_0 = 0` and `BUTTON_1 = 1` (the two identities the dispatch switch
in Remote_switch.c recognises). -/

def BUTTON_0 : Nat := 0

def BUTTON_1 : Nat := 1

/-- Enum `LED_ID` from System_lights.h (`LEDS` lists only `LED_0`). -/
inductive LED_ID where
  | LED_0
  deriving DecidableEq, Repr

/-- Modelled from the spec: the command's action kind.  The enum holding
`TOOGLE_LED` and `SET_PWM` is declared in Network_config.h, which is not
among the provided sources; the spec describes the wire command format as
`{ actuator_id: enum, action: enum (toggle | set-level), level: 0-100 }`,
and Remote_switch.c assigns exactly the two enumerates `TOOGLE_LED` and
`SET_PWM` to the `action` field. -/
inductive Cmd_action where
  | TOOGLE_LED
  | SET_PWM
  deriving DecidableEq, Repr

/-- Modelled from the spec: `TCP_COMMAND_TYPE`, the fixed-size wire record
declared in Network_config.h (not among the provided sources).  The spec
gives its layout as `{ actuator_id: enum, action: enum, level:
unsigned-integer(0-100) }`, matching the field accesses `cmd.ID`,
`cmd.action`, `cmd.pwm` in Remote_switch.c.  Each field is an `Option`, with
`none` standing for an indeterminate (never assigned) value of the C local
variable: the dispatch task's `TCP_COMMAND_TYPE cmd` is declared without an
initialiser. -/
structure TCP_COMMAND_TYPE where
  ID : Option LED_ID
  action : Option Cmd_action
  pwm : Option Nat
  deriving DecidableEq, Repr

/-- The dispatch task's local `cmd` at task start: declared uninitialised
(`TCP_COMMAND_TYPE cmd;`, Remote_switch.c line 193), so every field is
indeterminate. -/
def initialCmdBuf : TCP_COMMAND_TYPE := ⟨none, none, none⟩

/-! ## TCP client return codes (TCP_client.h lines 23-47) -/

inductive TCP_client_return where
  | CORE_TCP_CLIENT_OK
  | CORE_TCP_CLIENT_INIT_ERR
  | CORE_TCP_CLIENT_INIT_QUEUE_ERR
  | CORE_TCP_CLIENT_INIT_SEMAPHORE_ERR
  | CORE_TCP_CLIENT_DE_INIT_ERR
  | CORE_TCP_CLIENT_MODULE_WAS_NOT_INIT_ERR
  | CORE_TCP_CLIENT_CANT_INSERT_IN_QUEUE_ERR
  | CORE_TCP_CLIENT_SEND_TIME_OUT_WARN
  deriving DecidableEq, Repr

open TCP_client_return

/-! ## Command encoding (remote_switch_handler_func, Remote_switch.c 190-234)

On each wake the handler switches on the global `pressed_button` and then
unconditionally calls `send_message(cmd)`. -/

/-- The duty-cycle computation of the `BUTTON_1` branch
(Remote_switch.c lines 211-221):
`cmd.pwm = ((num_of_presses % 9) * 10u) + MIN_DUTY_CYCLE_PERC;` followed by
`if (cmd.pwm > MAX_DUTY_CYCLE_PERC) cmd.pwm = MIN_DUTY_CYCLE_PERC;`.
`num_of_presses` is a `uint64_t`, so the arithmetic is `% 2 ^ 64`. -/
def levelCalc (num_of_presses : Nat) : Nat :=
  let pwm := (((num_of_presses % UINT64_MOD) % 9) * 10 % UINT64_MOD
               + MIN_DUTY_CYCLE_PERC) % UINT64_MOD
  if pwm > MAX_DUTY_CYCLE_PERC then MIN_DUTY_CYCLE_PERC else pwm

/-- One wake of `remote_switch_handler_func` up to the `send_message` call:
the `switch (pressed_button)` statement acting on the persistent local
command buffer `cmd`.  `BUTTON_0` assigns only `ID` and `action`
(lines 202-205); `BUTTON_1` assigns `ID`, `action` and `pwm`
(lines 206-221, falling through to the empty `default`); any other
identity hits `default` alone and assigns nothing (lines 222-224).
The function's result is both the new buffer contents and — because line
227 runs unconditionally — the argument passed to `send_message`. -/
def remote_switch_handler_step (cmd : TCP_COMMAND_TYPE) (pressed_button : Nat)
    (num_of_presses : Nat) : TCP_COMMAND_TYPE :=
  if pressed_button = BUTTON_0 then
    { cmd with ID := some LED_ID.LED_0, action := some Cmd_action.TOOGLE_LED }
  else if pressed_button = BUTTON_1 then
    { cmd with ID := some LED_ID.LED_0, action := some Cmd_action.SET_PWM,
               pwm := some (levelCalc num_of_presses) }
  else
    cmd

lemma levelCalc_eq (n : Nat) : levelCalc n = (n % UINT64_MOD) % 9 * 10 + 20 := by
  have h9 : (n % UINT64_MOD) % 9 < 9 := Nat.mod_lt _ (by omega)
  have hbig : (9 : Nat) * 10 + 20 < UINT64_MOD := by unfold UINT64_MOD; norm_num
  have h1 : (n % UINT64_MOD) % 9 * 10 % UINT64_MOD = (n % UINT64_MOD) % 9 * 10 :=
    Nat.mod_eq_of_lt (by omega)
  unfold levelCalc
  rw [h1]
  have h2 : ((n % UINT64_MOD) % 9 * 10 + MIN_DUTY_CYCLE_PERC) % UINT64_MOD
      = (n % UINT64_MOD) % 9 * 10 + MIN_DUTY_CYCLE_PERC := by
    apply Nat.mod_eq_of_lt
    unfold MIN_DUTY_CYCLE_PERC
    omega
  rw [h2]
  have h3 : ¬ ((n % UINT64_MOD) % 9 * 10 + MIN_DUTY_CYCLE_PERC > MAX_DUTY_CYCLE_PERC) := by
    unfold MIN_DUTY_CYCLE_PERC MAX_DUTY_CYCLE_PERC
    omega
  rw [if_neg h3]
  rfl

lemma levelCalc_le (n : Nat) : levelCalc n ≤ 100 := by
  have h9 : (n % UINT64_MOD) % 9 < 9 := Nat.mod_lt _ (by omega)
  rw [levelCalc_eq]
  omega

lemma mod_uint64_mod_nine (n : Nat) (h : n < UINT64_MOD) :
    (n % UINT64_MOD) % 9 = n % 9 := by
  rw [Nat.mod_eq_of_lt h]

/-! ## TCP client module state (TCP_client.c globals, lines 40-57)

`connection_state_sempahore` is a counting semaphore created with maximum
count 1 and initial count 1 (line 143).  At the boundary of each module
call it is quiescent (count 1); whether `xSemaphoreTake` succeeds within
the bounded wait depends on contention from other tasks, so each operation
takes the outcome of its take as an explicit boolean parameter `takeOk`.
After a successful take the caller holds the token (count 0), and
`xSemaphoreGive` on a counting semaphore fails only when the count is
already at its maximum, so the matching give succeeds. -/

structure TCPState where
  /-- Global `cmd_TX_queue`: FreeRTOS queue of `TCP_COMMAND_TYPE`, capacity `RX_QUEUE_LEN`. -/
  cmd_TX_queue : List TCP_COMMAND_TYPE
  /-- Global `connection_state`: whether the client is connected to the server. -/
  connection_state : Bool
  /-- Global `module_was_initialized`: set by a successful `init_TCP_client`. -/
  module_was_initialized : Bool
  deriving DecidableEq, Repr

/-- FreeRTOS `xSemaphoreGive` on a counting semaphore: succeeds if and only
if the current count is below the maximum, incrementing it. -/
def xSemaphoreGive (count maxCount : Nat) : Bool × Nat :=
  if count < maxCount then (true, count + 1) else (false, count)

/-- FreeRTOS `xQueueSend` with a bounded wait on a queue of capacity
`RX_QUEUE_LEN`: the item is appended at the tail if a slot is available
before the wait elapses; a queue still full when the wait expires makes the
call fail and leaves the queue unchanged. -/
def xQueueSend (q : List TCP_COMMAND_TYPE) (cmd : TCP_COMMAND_TYPE) :
    Bool × List TCP_COMMAND_TYPE :=
  if q.length < RX_QUEUE_LEN then (true, q ++ [cmd]) else (false, q)

/-- Function `get_connection_state` (TCP_client.c lines 379-399).  `takeOk` is the
result of `xSemaphoreTake(connection_state_sempahore, time_to_wait)`.  On
success the stored boolean is read under the token and the token is given
back (the give, on count 0 of max 1, succeeds — see `xSemaphoreGive`; its
failure branch is an empty TODO anyway); on timeout the function returns
`false` without reading the variable. -/
def get_connection_state (takeOk : Bool) (s : TCPState) : Bool :=
  if takeOk then
    let state := s.connection_state
    let give := xSemaphoreGive 0 1
    -- `if give fails: TODO` — no effect on the returned value (line 388-391)
    if give.fst then state else state
  else
    false

/-- Function `set_connection_state` (TCP_client.c lines 401-419).  On a successful
take the boolean is written and the token given back; the code returns
`false` if the give fails (unreachable for a held max-1 counting semaphore)
and `true` otherwise.  On timeout it returns `false` with the variable
untouched. -/
def set_connection_state (takeOk : Bool) (state : Bool) (s : TCPState) :
    Bool × TCPState :=
  if takeOk then
    let s' := { s with connection_state := state }
    let give := xSemaphoreGive 0 1
    if give.fst then (true, s') else (false, s')
  else
    (false, s)

/-- Function `send_message` (TCP_client.c lines 203-224).  `takeOk` feeds the inner
`get_connection_state(MAX_TIME_TO_WAIT_TO_SEND)` call.  The queue wait
`(TickType_t)portMAX_DELAY-1` is bounded, so insertion into a persistently
full queue fails. -/
def send_message (cmd : TCP_COMMAND_TYPE) (takeOk : Bool) (s : TCPState) :
    TCP_client_return × TCPState :=
  if ¬ s.module_was_initialized then
    (CORE_TCP_CLIENT_MODULE_WAS_NOT_INIT_ERR, s)
  else if get_connection_state takeOk s then
    let r := xQueueSend s.cmd_TX_queue cmd
    if r.fst then (CORE_TCP_CLIENT_OK, { s with cmd_TX_queue := r.snd })
    else (CORE_TCP_CLIENT_CANT_INSERT_IN_QUEUE_ERR, s)
  else
    (CORE_TCP_CLIENT_SEND_TIME_OUT_WARN, s)

/-- Function `init_TCP_client` (TCP_client.c lines 130-188).  `queueOk`, `semOk` and
`wifiOk` are the outcomes of `xQueueCreate`, `xSemaphoreCreateCounting` and
`WiFi_init`.  On the success path the function busy-waits (`while` loop at
line 177) until `get_connection_state` reports a connection — it has no
failing exit — and then sets `module_was_initialized = true` and returns
`CORE_TCP_CLIENT_OK`; the model captures the state at that return. -/
def init_TCP_client (queueOk semOk wifiOk : Bool) (s : TCPState) :
    TCP_client_return × TCPState :=
  if ¬ queueOk then (CORE_TCP_CLIENT_INIT_QUEUE_ERR, s)
  else
    let s1 := { s with cmd_TX_queue := [] }
    if ¬ semOk then (CORE_TCP_CLIENT_INIT_SEMAPHORE_ERR, s1)
    else if ¬ wifiOk then (CORE_TCP_CLIENT_INIT_ERR, s1)
    else (CORE_TCP_CLIENT_OK, { s1 with module_was_initialized := true })

/-- Function `de_init_TCP_client` (TCP_client.c lines 190-201).  Writes
`connection_state = false` directly (line 193, no semaphore involved),
then tears down WiFi (`wifiDeinitOk` its outcome).  It never touches
`module_was_initialized`. -/
def de_init_TCP_client (wifiDeinitOk : Bool) (s : TCPState) :
    TCP_client_return × TCPState :=
  let s' := { s with connection_state := false }
  if ¬ wifiDeinitOk then (CORE_TCP_CLIENT_DE_INIT_ERR, s')
  else (CORE_TCP_CLIENT_OK, s')

/-! ## Access instrumentation for the connection-state boolean

Each record lists one textual access (read or write) of the global
`connection_state` performed by an operation of TCP_client.c, together
with whether `connection_state_sempahore` is held at that program point. -/

structure ConnAccess where
  isWrite : Bool
  semHeld : Bool
  deriving DecidableEq, Repr

/-- Accesses of `connection_state` performed by `get_connection_state`:
one read at line 387, inside the `xSemaphoreTake` success branch. -/
def get_connection_state_accesses (takeOk : Bool) : List ConnAccess :=
  if takeOk then [⟨false, true⟩] else []

/-- Accesses of `connection_state` performed by `set_connection_state`:
one write at line 406, inside the `xSemaphoreTake` success branch. -/
def set_connection_state_accesses (takeOk : Bool) : List ConnAccess :=
  if takeOk then [⟨true, true⟩] else []

/-- Accesses of `connection_state` performed by `send_message`: only those
of its inner `get_connection_state` call (line 211), reached when the
module is initialised. -/
def send_message_accesses (initialized takeOk : Bool) : List ConnAccess :=
  if initialized then get_connection_state_accesses takeOk else []

/-- Accesses of `connection_state` performed by `de_init_TCP_client`: the
direct write `connection_state = false;` at line 193, executed without any
semaphore acquisition. -/
def de_init_TCP_client_accesses : List ConnAccess :=
  [⟨true, false⟩]

/-! ## Connection lifecycle state machine
(WiFi_event_handler lines 319-346, IP_event_handler lines 348-377)

The spec's state machine has states {Disconnected, Connecting, Connected};
the events are module initialisation (`init_TCP_client` requesting WiFi
bring-up, leading to `esp_wifi_connect`), the `IP_EVENT_STA_GOT_IP`
notification, and the `WIFI_EVENT_STA_DISCONNECTED` notification.  The
abstract state carries whether the `cmd_TX_func` worker task exists and the
value driven into the connection-state guard. -/

inductive ConnPhase where
  | Disconnected
  | Connecting
  | Connected
  deriving DecidableEq, Repr

structure LifeState where
  phase : ConnPhase
  /-- whether the `cmd_TX_func` Network Session Worker task exists -/
  worker : Bool
  /-- the value last driven into the connection-state guard -/
  guard : Bool
  deriving DecidableEq, Repr

/-- Initial lifecycle state: no WiFi requested, no worker task, guard false
(`connection_state` is a zero-initialised static). -/
def initialLifeState : LifeState := ⟨ConnPhase.Disconnected, false, false⟩

/-- One lifecycle transition.
* `moduleInit`: `init_TCP_client` clears the task handle (line 133) and
  requests WiFi bring-up; `WIFI_EVENT_STA_START` calls `esp_wifi_connect()`
  (lines 324-327).
* `addressAcquired`: `IP_event_handler` on `IP_EVENT_STA_GOT_IP`
  (lines 353-370) calls `set_connection_state(portMAX_DELAY-1, true)`
  (line 356) — a bounded wait whose result is ignored, so on a timeout
  (`setOk = false`) the guard keeps its old value — and then
  `xTaskCreate(cmd_TX_func, ...)` (lines 359-361): the worker task exists
  afterwards exactly when the create succeeded (`taskOk`); the failure
  branch is an empty `/* TODO: Handle this corner case. */`
  (lines 363-366), so on `taskOk = false` the machine is in `Connected`
  with no worker.
* `linkDown`: `WiFi_event_handler` on `WIFI_EVENT_STA_DISCONNECTED`
  (lines 328-342) calls `set_connection_state(portMAX_DELAY-1, false)`
  (line 331, result again ignored, guard unchanged on a timeout), deletes
  the worker task when its handle is set, and calls `esp_wifi_connect()`
  again; it can fire from a failed connection attempt (`Connecting`) as
  well as from `Connected`. -/
inductive LifeStep : LifeState → LifeState → Prop where
  | moduleInit (s : LifeState) (h : s.phase = ConnPhase.Disconnected) :
      LifeStep s ⟨ConnPhase.Connecting, false, s.guard⟩
  | addressAcquired (s : LifeState) (taskOk setOk : Bool)
      (h : s.phase = ConnPhase.Connecting) :
      LifeStep s ⟨ConnPhase.Connected, taskOk, if setOk then true else s.guard⟩
  | linkDown (s : LifeState) (setOk : Bool)
      (h : s.phase = ConnPhase.Connected ∨ s.phase = ConnPhase.Connecting) :
      LifeStep s ⟨ConnPhase.Connecting, false, if setOk then false else s.guard⟩

/-- States reachable from the initial lifecycle state. -/
inductive LifeReachable : LifeState → Prop where
  | init : LifeReachable initialLifeState
  | step {s s' : LifeState} (hr : LifeReachable s) (hs : LifeStep s s') :
      LifeReachable s'

/-! ## Operation traces over the TCP client state (for lifetime claims) -/

/-- One externally invokable operation of the TCP client module. -/
inductive ClientOp where
  | opInit (queueOk semOk wifiOk : Bool)
  | opDeInit (wifiDeinitOk : Bool)
  | opSend (cmd : TCP_COMMAND_TYPE) (takeOk : Bool)
  | opSetConn (takeOk : Bool) (v : Bool)
  | opGetConn (takeOk : Bool)
  deriving Repr

/-- Effect of one operation on the module state. -/
def applyOp (s : TCPState) : ClientOp → TCPState
  | ClientOp.opInit q sm w => (init_TCP_client q sm w s).snd
  | ClientOp.opDeInit w => (de_init_TCP_client w s).snd
  | ClientOp.opSend cmd t => (send_message cmd t s).snd
  | ClientOp.opSetConn t v => (set_connection_state t v s).snd
  | ClientOp.opGetConn _ => s

/-- Effect of a sequence of operations, first operation first. -/
def runOps (s : TCPState) : List ClientOp → TCPState
  | [] => s
  | op :: ops => runOps (applyOp s op) ops

lemma applyOp_initialized (s : TCPState) (op : ClientOp)
    (h : s.module_was_initialized = true) :
    (applyOp s op).module_was_initialized = true := by
  cases op with
  | opInit q sm w =>
      cases q <;> cases sm <;> cases w <;>
        simp [applyOp, init_TCP_client, h]
  | opDeInit w =>
      cases w <;> simp [applyOp, de_init_TCP_client, h]
  | opSend cmd t =>
      simp only [applyOp, send_message]
      split
      · simpa using h
      · split
        · split <;> simpa using h
        · simpa using h
  | opSetConn t v =>
      cases t <;> simp [applyOp, set_connection_state, xSemaphoreGive, h]
  | opGetConn t => simpa [applyOp] using h

lemma runOps_initialized (s : TCPState) (ops : List ClientOp)
    (h : s.module_was_initialized = true) :
    (runOps s ops).module_was_initialized = true := by
  induction ops generalizing s with
  | nil => simpa [runOps] using h
  | cons op ops ih => exact ih _ (applyOp_initialized s op h)

lemma send_message_ne_not_init (cmd : TCP_COMMAND_TYPE) (takeOk : Bool)
    (s : TCPState) (h : s.module_was_initialized = true) :
    (send_message cmd takeOk s).fst ≠ CORE_TCP_CLIENT_MODULE_WAS_NOT_INIT_ERR := by
  simp only [send_message, h, Bool.true_eq_false, not_false_eq_true, not_true_eq_false,
    if_false]
  split
  · split <;> simp
  · simp

/-- A convenient connected, initialised state with an empty queue. -/
def connectedEmptyState : TCPState := ⟨[], true, true⟩

/-! ## Claim theorems -/

/-- C1: for a button driving level-cycling (`BUTTON_1`), the command built
on the n-th press (n from `get_num_of_presses`, a `uint64_t`) has level
`((n mod 9) * 10) + MIN_DUTY_CYCLE_PERC` with `MIN_DUTY_CYCLE_PERC = 20`
(the wrap branch replacing values above `MAX_DUTY_CYCLE_PERC = 100` by 20
is part of `levelCalc` and changes nothing); concretely presses 1..9 yield
levels 30, 40, 50, 60, 70, 80, 90, 100, 20. -/
theorem spec_C1 (cmd : TCP_COMMAND_TYPE) (n : Nat) (hn : n < UINT64_MOD) :
    (remote_switch_handler_step cmd BUTTON_1 n).pwm
      = some ((n % 9) * 10 + MIN_DUTY_CYCLE_PERC)
    ∧ MIN_DUTY_CYCLE_PERC = 20 ∧ MAX_DUTY_CYCLE_PERC = 100
    ∧ (List.range 9).map (fun i => levelCalc (i + 1))
      = [30, 40, 50, 60, 70, 80, 90, 100, 20] := by
  refine ⟨?_, rfl, rfl, by decide⟩
  simp only [remote_switch_handler_step, BUTTON_0, BUTTON_1]
  rw [if_pos trivial]
  simp only [levelCalc_eq, Nat.mod_eq_of_lt hn]
  rfl

/-- Witness for C1 at n = 3: the fourth conjunct lists the levels of the
first nine presses. -/
theorem spec_C1_witness :
    (remote_switch_handler_step initialCmdBuf BUTTON_1 3).pwm
      = some ((3 % 9) * 10 + MIN_DUTY_CYCLE_PERC)
    ∧ MIN_DUTY_CYCLE_PERC = 20 ∧ MAX_DUTY_CYCLE_PERC = 100
    ∧ (List.range 9).map (fun i => levelCalc (i + 1))
      = [30, 40, 50, 60, 70, 80, 90, 100, 20] :=
  spec_C1 initialCmdBuf 3 (by norm_num [UINT64_MOD])

/-- C2: `send_message` on an uninitialised module returns
`CORE_TCP_CLIENT_MODULE_WAS_NOT_INIT_ERR`, and on an initialised module
whose connection-state read yields false returns
`CORE_TCP_CLIENT_SEND_TIME_OUT_WARN`; in both cases the whole state — in
particular the command queue — is unchanged. -/
theorem spec_C2 (cmd : TCP_COMMAND_TYPE) (takeOk : Bool) (s : TCPState) :
    (s.module_was_initialized = false →
      send_message cmd takeOk s = (CORE_TCP_CLIENT_MODULE_WAS_NOT_INIT_ERR, s))
    ∧ (s.module_was_initialized = true → get_connection_state takeOk s = false →
      send_message cmd takeOk s = (CORE_TCP_CLIENT_SEND_TIME_OUT_WARN, s)) := by
  constructor
  · intro h
    simp [send_message, h]
  · intro h hc
    simp [send_message, h, hc]

/-- Witness for C2: an uninitialised state, and an initialised state whose
semaphore take times out (so the read yields false). -/
theorem spec_C2_witness :
    send_message initialCmdBuf true ⟨[], true, false⟩
      = (CORE_TCP_CLIENT_MODULE_WAS_NOT_INIT_ERR, ⟨[], true, false⟩)
    ∧ send_message initialCmdBuf false ⟨[], true, true⟩
      = (CORE_TCP_CLIENT_SEND_TIME_OUT_WARN, ⟨[], true, true⟩) :=
  ⟨(spec_C2 initialCmdBuf true ⟨[], true, false⟩).1 rfl,
   (spec_C2 initialCmdBuf false ⟨[], true, true⟩).2 rfl rfl⟩

/-- C3 (code bug): `de_init_TCP_client` writes the connection-state boolean
directly (TCP_client.c line 193) without acquiring
`connection_state_sempahore`, so not every access of the boolean goes
through the semaphore: its access list contains a write with the semaphore
not held, while the dedicated accessors only touch the boolean under the
token. -/
theorem spec_C3_bug :
    (∃ a ∈ de_init_TCP_client_accesses, a.isWrite = true ∧ a.semHeld = false)
    ∧ (∀ takeOk, ∀ a ∈ get_connection_state_accesses takeOk, a.semHeld = true)
    ∧ (∀ takeOk, ∀ a ∈ set_connection_state_accesses takeOk, a.semHeld = true)
    ∧ (de_init_TCP_client true connectedEmptyState).snd.connection_state = false := by
  refine ⟨⟨⟨true, false⟩, by decide, rfl, rfl⟩, ?_, ?_, by decide⟩
  · intro takeOk a ha
    cases takeOk
    · simp [get_connection_state_accesses] at ha
    · simp only [get_connection_state_accesses, if_pos trivial,
        List.mem_singleton] at ha
      rw [ha]
  · intro takeOk a ha
    cases takeOk
    · simp [set_connection_state_accesses] at ha
    · simp only [set_connection_state_accesses, if_pos trivial,
        List.mem_singleton] at ha
      rw [ha]

/-- C4 (code bug): a wake whose recorded `pressed_button` is neither
`BUTTON_0` nor `BUTTON_1` is not dropped — the `switch` assigns nothing
(empty `default`, Remote_switch.c lines 222-224), but line 227 still calls
`send_message(cmd)` unconditionally, forwarding the stale command buffer
(here the one a previous `BUTTON_1` press left behind) to the queue. -/
theorem spec_C4_bug :
    remote_switch_handler_step
        ⟨some LED_ID.LED_0, some Cmd_action.SET_PWM, some 70⟩ 2 0
      = ⟨some LED_ID.LED_0, some Cmd_action.SET_PWM, some 70⟩
    ∧ send_message
        (remote_switch_handler_step
          ⟨some LED_ID.LED_0, some Cmd_action.SET_PWM, some 70⟩ 2 0)
        true connectedEmptyState
      = (CORE_TCP_CLIENT_OK,
         ⟨[⟨some LED_ID.LED_0, some Cmd_action.SET_PWM, some 70⟩], true, true⟩) := by
  constructor
  · decide
  · decide

/-- C5: queue insertion by `send_message` (initialised module, connection
read true) uses the bounded-wait `xQueueSend` on the capacity-10 queue: a
queue still full after the wait makes it return
`CORE_TCP_CLIENT_CANT_INSERT_IN_QUEUE_ERR` with the state unchanged, and
otherwise the command is appended at the tail, preserving FIFO order. -/
theorem spec_C5 (cmd : TCP_COMMAND_TYPE) (takeOk : Bool) (s : TCPState)
    (hinit : s.module_was_initialized = true)
    (hconn : get_connection_state takeOk s = true) :
    RX_QUEUE_LEN = 10
    ∧ (s.cmd_TX_queue.length ≥ RX_QUEUE_LEN →
        send_message cmd takeOk s = (CORE_TCP_CLIENT_CANT_INSERT_IN_QUEUE_ERR, s))
    ∧ (s.cmd_TX_queue.length < RX_QUEUE_LEN →
        send_message cmd takeOk s
          = (CORE_TCP_CLIENT_OK, { s with cmd_TX_queue := s.cmd_TX_queue ++ [cmd] })) := by
  refine ⟨rfl, ?_, ?_⟩
  · intro hfull
    have hq : xQueueSend s.cmd_TX_queue cmd = (false, s.cmd_TX_queue) := by
      simp [xQueueSend, Nat.not_lt.mpr hfull]
    simp [send_message, hinit, hconn, hq]
  · intro hroom
    have hq : xQueueSend s.cmd_TX_queue cmd = (true, s.cmd_TX_queue ++ [cmd]) := by
      simp [xQueueSend, hroom]
    simp [send_message, hinit, hconn, hq]

/-- Witness for C5: an empty queue accepts the command at the tail, and a
queue holding 10 commands rejects it. -/
theorem spec_C5_witness :
    (RX_QUEUE_LEN = 10
      ∧ ((connectedEmptyState.cmd_TX_queue.length ≥ RX_QUEUE_LEN →
          send_message initialCmdBuf true connectedEmptyState
            = (CORE_TCP_CLIENT_CANT_INSERT_IN_QUEUE_ERR, connectedEmptyState))
      ∧ (connectedEmptyState.cmd_TX_queue.length < RX_QUEUE_LEN →
          send_message initialCmdBuf true connectedEmptyState
            = (CORE_TCP_CLIENT_OK,
               { connectedEmptyState with
                  cmd_TX_queue := connectedEmptyState.cmd_TX_queue ++ [initialCmdBuf] }))))
    ∧ (send_message initialCmdBuf true
        ⟨List.replicate 10 initialCmdBuf, true, true⟩
        = (CORE_TCP_CLIENT_CANT_INSERT_IN_QUEUE_ERR,
           ⟨List.replicate 10 initialCmdBuf, true, true⟩)) :=
  ⟨spec_C5 initialCmdBuf true connectedEmptyState rfl rfl,
   (spec_C5 initialCmdBuf true ⟨List.replicate 10 initialCmdBuf, true, true⟩
      rfl rfl).2.1 (by decide)⟩

/-- C6 (code bug): the claimed invariant — the Network Session Worker task
exists if and only if the lifecycle machine is in `Connected` — fails on
the code: when the `xTaskCreate` call of `IP_event_handler` fails, its
failure branch is an empty TODO (TCP_client.c lines 363-366), so the
address-acquired step still enters `Connected` (guard driven true) with no
worker task created.  The state `⟨Connected, worker := false, guard :=
true⟩` is reachable — module init, then address acquired with a failing
task create — and refutes the iff at that state. -/
theorem spec_C6_bug :
    LifeReachable ⟨ConnPhase.Connected, false, true⟩
    ∧ ¬ ((LifeState.mk ConnPhase.Connected false true).worker = true
          ↔ (LifeState.mk ConnPhase.Connected false true).phase
              = ConnPhase.Connected) := by
  constructor
  · exact LifeReachable.step
      (LifeReachable.step LifeReachable.init (LifeStep.moduleInit _ rfl))
      (LifeStep.addressAcquired _ false true rfl)
  · decide

/-- C7: the connection-state accessors fail safe: when the semaphore take
times out, `get_connection_state` returns false regardless of the stored
boolean and `set_connection_state` returns false leaving the whole state
(in particular the boolean) unchanged; when the take succeeds,
`get_connection_state` returns the stored boolean and
`set_connection_state` stores the given value and returns true. -/
theorem spec_C7 (s : TCPState) (v : Bool) :
    get_connection_state false s = false
    ∧ get_connection_state true s = s.connection_state
    ∧ set_connection_state false v s = (false, s)
    ∧ set_connection_state true v s = (true, { s with connection_state := v }) := by
  refine ⟨rfl, ?_, rfl, ?_⟩
  · simp [get_connection_state, xSemaphoreGive]
  · simp [set_connection_state, xSemaphoreGive]

/-- C8: the level-wrap branch is unreachable: for every `uint64_t` press
count the raw computed duty cycle is at most `MAX_DUTY_CYCLE_PERC = 100`,
so the guard `cmd.pwm > MAX_DUTY_CYCLE_PERC` never fires, and the level
always lies in {20, 30, 40, 50, 60, 70, 80, 90, 100}. -/
theorem spec_C8 (n : Nat) :
    levelCalc n ≤ MAX_DUTY_CYCLE_PERC
    ∧ levelCalc n = (n % UINT64_MOD) % 9 * 10 + MIN_DUTY_CYCLE_PERC
    ∧ levelCalc n ∈ [20, 30, 40, 50, 60, 70, 80, 90, 100] := by
  have h9 : (n % UINT64_MOD) % 9 < 9 := Nat.mod_lt _ (by omega)
  refine ⟨levelCalc_le n, levelCalc_eq n, ?_⟩
  rw [levelCalc_eq]
  have hcases : (n % UINT64_MOD) % 9 = 0 ∨ (n % UINT64_MOD) % 9 = 1
      ∨ (n % UINT64_MOD) % 9 = 2 ∨ (n % UINT64_MOD) % 9 = 3
      ∨ (n % UINT64_MOD) % 9 = 4 ∨ (n % UINT64_MOD) % 9 = 5
      ∨ (n % UINT64_MOD) % 9 = 6 ∨ (n % UINT64_MOD) % 9 = 7
      ∨ (n % UINT64_MOD) % 9 = 8 := by omega
  rcases hcases with h | h | h | h | h | h | h | h | h <;> rw [h] <;> decide

/-- C9: de-initialisation does not clear the module-initialised flag: once
`init_TCP_client` has returned `CORE_TCP_CLIENT_OK`, after any sequence of
module operations (including `de_init_TCP_client`) the flag is still true,
a further `de_init_TCP_client` still leaves it true, and `send_message`
can never return `CORE_TCP_CLIENT_MODULE_WAS_NOT_INIT_ERR`. -/
theorem spec_C9 (s : TCPState) (q sm w : Bool) (ops : List ClientOp)
    (cmd : TCP_COMMAND_TYPE) (takeOk wifiDeinitOk : Bool)
    (h : (init_TCP_client q sm w s).fst = CORE_TCP_CLIENT_OK) :
    (runOps (init_TCP_client q sm w s).snd ops).module_was_initialized = true
    ∧ (de_init_TCP_client wifiDeinitOk
        (runOps (init_TCP_client q sm w s).snd ops)).snd.module_was_initialized = true
    ∧ (send_message cmd takeOk
        (runOps (init_TCP_client q sm w s).snd ops)).fst
        ≠ CORE_TCP_CLIENT_MODULE_WAS_NOT_INIT_ERR := by
  have hflag : (init_TCP_client q sm w s).snd.module_was_initialized = true := by
    cases q <;> cases sm <;> cases w <;> simp_all [init_TCP_client]
  have hrun := runOps_initialized _ ops hflag
  refine ⟨hrun, ?_, send_message_ne_not_init cmd takeOk _ hrun⟩
  cases wifiDeinitOk <;> simp [de_init_TCP_client, hrun]

/-- Witness for C9: a successful init from the blank state, followed by a
stop of the client (`opDeInit`). -/
theorem spec_C9_witness :
    (runOps (init_TCP_client true true true ⟨[], false, false⟩).snd
        [ClientOp.opDeInit true]).module_was_initialized = true
    ∧ (de_init_TCP_client true
        (runOps (init_TCP_client true true true ⟨[], false, false⟩).snd
          [ClientOp.opDeInit true])).snd.module_was_initialized = true
    ∧ (send_message initialCmdBuf true
        (runOps (init_TCP_client true true true ⟨[], false, false⟩).snd
          [ClientOp.opDeInit true])).fst
        ≠ CORE_TCP_CLIENT_MODULE_WAS_NOT_INIT_ERR :=
  spec_C9 ⟨[], false, false⟩ true true true [ClientOp.opDeInit true]
    initialCmdBuf true true (by decide)

/-- C10: the toggle branch (`BUTTON_0`) assigns only `ID` and `action`, so
the command handed — in full, as the fixed-size wire record — to
`send_message` keeps whatever the `pwm` field held: indeterminate (`none`)
on the first press of the never-initialised buffer, and the value a
previous iteration (here a `BUTTON_1` press) left behind on later presses;
that record, `pwm` field included, is what gets enqueued. -/
theorem spec_C10 (cmd : TCP_COMMAND_TYPE) (n m : Nat) :
    (remote_switch_handler_step cmd BUTTON_0 n).pwm = cmd.pwm
    ∧ (remote_switch_handler_step cmd BUTTON_0 n).action
        = some Cmd_action.TOOGLE_LED
    ∧ (remote_switch_handler_step initialCmdBuf BUTTON_0 n).pwm = none
    ∧ (remote_switch_handler_step
        (remote_switch_handler_step initialCmdBuf BUTTON_1 m) BUTTON_0 n).pwm
        = some (levelCalc m)
    ∧ (send_message (remote_switch_handler_step initialCmdBuf BUTTON_0 n)
        true connectedEmptyState).snd.cmd_TX_queue
        = [remote_switch_handler_step initialCmdBuf BUTTON_0 n] := by
  refine ⟨rfl, rfl, rfl, ?_, ?_⟩
  · simp [remote_switch_handler_step, BUTTON_0, BUTTON_1]
  · simp [send_message, get_connection_state, xSemaphoreGive, xQueueSend,
      connectedEmptyState, RX_QUEUE_LEN]

end RemoteSwitch
